import Mathlib

/-!
Verification of the feature-encoding and risk-categorization pipeline of the
Bronchial-Asthma-Risk-Tool (src/app.py), embedded shallowly: Python floats are
modelled as exact rationals (ℚ), Python ints as ℤ, Python dicts as association
lists, and fallible dict indexing (`d[k]`, which raises KeyError) as Option.
-/

namespace AsthmaRisk

/-- `age_map` from src/app.py line 89. -/
def age_map : List (String × ℤ) :=
  [("Under 15", 0), ("15-30", 1), ("30-45", 2), ("45-60", 3), ("60+", 4)]

/-- `binary_map` from src/app.py line 90. -/
def binary_map : List (String × ℤ) := [("Yes", 1), ("No", 0)]

/-- `smoking_map` from src/app.py line 91. -/
def smoking_map : List (String × ℤ) :=
  [("No", 0), ("Some days", 1), ("Every day", 2), ("Invalid", -1)]

/-- `cigs_map` from src/app.py line 92. -/
def cigs_map : List (String × ℤ) :=
  [("<1", 0), ("2-5", 1), (">5", 2), ("Invalid", -1)]

/-- Python str.split() whitespace characters (space, tab, newline, carriage
return, vertical tab, form feed). -/
def pyIsSpace (c : Char) : Bool :=
  c == ' ' || c == '\t' || c == '\n' || c == '\r' || c == '\x0b' || c == '\x0c'

/-- Helper for `pySplit`: split a character list on runs of whitespace,
discarding empty tokens, accumulating the current token reversed. -/
def splitWsAux : List Char → List Char → List (List Char)
  | [], acc => if acc.isEmpty then [] else [acc.reverse]
  | c :: cs, acc =>
    if pyIsSpace c then
      if acc.isEmpty then splitWsAux cs [] else acc.reverse :: splitWsAux cs []
    else splitWsAux cs (c :: acc)

/-- Python `str.split()` with no argument: whitespace-delimited tokens, empty
tokens discarded. -/
def pySplit (s : String) : List (List Char) := splitWsAux s.toList []

/-- Strip leading and trailing whitespace (Python `float` accepts padded
input). -/
def pyStrip (cs : List Char) : List Char :=
  ((cs.dropWhile pyIsSpace).reverse.dropWhile pyIsSpace).reverse

/-- Value of a list of decimal digit characters. -/
def digitsVal (cs : List Char) : ℕ :=
  cs.foldl (fun a c => 10 * a + (c.toNat - 48)) 0

/-- Consume an optional leading sign, returning the sign as ±1. -/
def parseSign : List Char → ℤ × List Char
  | '+' :: cs => (1, cs)
  | '-' :: cs => (-1, cs)
  | cs => (1, cs)

/-- Python `float(token)` on finite decimal literals, modelled exactly over ℚ:
optional sign, digits with optional decimal point (at least one digit overall),
optional exponent part.  Returns none when the text is not a valid float
literal (the `except` path of `encode_duration`). -/
def parsePyFloat (cs0 : List Char) : Option ℚ :=
  let cs1 := pyStrip cs0
  let sc := parseSign cs1
  let ip := sc.2.takeWhile Char.isDigit
  let cs2 := sc.2.dropWhile Char.isDigit
  let fpr : List Char × List Char :=
    match cs2 with
    | '.' :: rest => (rest.takeWhile Char.isDigit, rest.dropWhile Char.isDigit)
    | _ => ([], cs2)
  let fp := fpr.1
  let cs3 := fpr.2
  if ip.length = 0 ∧ fp.length = 0 then none
  else
    let mant : ℚ := ((sc.1 * (digitsVal (ip ++ fp) : ℤ) : ℤ) : ℚ) / ((10 : ℚ) ^ fp.length)
    match cs3 with
    | [] => some mant
    | e :: rest =>
      if e == 'e' || e == 'E' then
        let esc := parseSign rest
        let ed := esc.2.takeWhile Char.isDigit
        let rest2 := esc.2.dropWhile Char.isDigit
        if ed.length = 0 ∨ rest2.length ≠ 0 then none
        else some (mant * (10 : ℚ) ^ (esc.1 * (digitsVal ed : ℤ)))
      else none

/-- Python `int(q)` on a float value: truncation toward zero, modelled with
T-division on the reduced numerator and denominator. -/
def truncRat (q : ℚ) : ℤ := Int.tdiv q.num (q.den : ℤ)

/-- `encode_duration` from src/app.py lines 94-99: the literal sentinel
"Invalid" encodes to -1; otherwise the first whitespace-delimited token is
parsed as a float and truncated to an integer; any parse failure (including
the empty string, whose split is empty) yields -1 via the bare `except`. -/
def encode_duration (x : String) : ℤ :=
  if x = "Invalid" then -1
  else
    match pySplit x with
    | [] => -1
    | t :: _ =>
      match parsePyFloat t with
      | some q => truncRat q
      | none => -1

example : encode_duration "6 months" = 6 := by with_unfolding_all decide
example : encode_duration "Invalid" = -1 := by decide
example : encode_duration "abc" = -1 := by decide
example : encode_duration "" = -1 := by decide
example : encode_duration "-1 months" = -1 := by with_unfolding_all decide
example : encode_duration "6.9" = 6 := by with_unfolding_all decide
example : encode_duration "-6.9 whatever" = -6 := by with_unfolding_all decide

/-- The raw user-supplied answers, one per form control of src/app.py lines
107-125: the selectbox labels as strings, weight and height as numbers (ℚ for
Python floats), exercise days as an integer, the insulin-duration free text. -/
structure RawAnswers where
  gender_label : String
  age_group : String
  pregnancy : String
  blood_pressure : String
  cholesterol : String
  diabetes : String
  home_pes : String
  weed_pes : String
  had_asthma : String
  weight : ℚ
  height : ℚ
  exercise : ℤ
  smoking : String
  cigs : String
  duration_insulin : String
  still_asthma : String
  er_visit : String

/-- `bmi = weight / ((height/100)**2)` from src/app.py line 128. -/
def bmi (r : RawAnswers) : ℚ := r.weight / ((r.height / 100) ^ 2)

/-- The entries of `data_dict` (src/app.py lines 135-154) once the twelve
lookup-table accesses have produced values `a p bp ch di hp wp hada sa er sm
cg`; the keys and their order are exactly those of the source dict literal. -/
def dictEntries (r : RawAnswers) (a p bp ch di hp wp hada sa er sm cg : ℤ) :
    List (String × ℚ) :=
  [("Gender", if r.gender_label = "Male" then 1 else 0),
   ("Age_Group", (a : ℚ)),
   ("Pregnancy_status", (p : ℚ)),
   ("Blood_pressure", (bp : ℚ)),
   ("Cholesterol", (ch : ℚ)),
   ("Diabetes", (di : ℚ)),
   ("Home_pesticides", (hp : ℚ)),
   ("Weed_pesticides", (wp : ℚ)),
   ("Had_asthma", (hada : ℚ)),
   ("Still_asthma", (sa : ℚ)),
   ("ER_visit_past_year", (er : ℚ)),
   ("Smoking_frequency", (sm : ℚ)),
   ("Cigarettes_per_day", (cg : ℚ)),
   ("Duration_insulin", (encode_duration r.duration_insulin : ℚ)),
   ("Weight_kg", r.weight),
   ("Height_cm", r.height),
   ("BMI", bmi r),
   ("Exercise_per_month", (r.exercise : ℚ))]

/-- `data_dict` from src/app.py lines 135-154.  Each Python `map[key]` access
raises KeyError when the key is absent, modelled by Option bind: the dict is
only produced when every categorical value is present in its lookup table. -/
def data_dict (r : RawAnswers) : Option (List (String × ℚ)) := do
  let a ← age_map.lookup r.age_group
  let p ← binary_map.lookup r.pregnancy
  let bp ← binary_map.lookup r.blood_pressure
  let ch ← binary_map.lookup r.cholesterol
  let di ← binary_map.lookup r.diabetes
  let hp ← binary_map.lookup r.home_pes
  let wp ← binary_map.lookup r.weed_pes
  let hada ← binary_map.lookup r.had_asthma
  let sa ← binary_map.lookup r.still_asthma
  let er ← binary_map.lookup r.er_visit
  let sm ← smoking_map.lookup r.smoking
  let cg ← cigs_map.lookup r.cigs
  pure (dictEntries r a p bp ch di hp wp hada sa er sm cg)

/-- Python `d.get(k, 0)`: dict lookup with default 0. -/
def lookupD (d : List (String × ℚ)) (k : String) : ℚ := (d.lookup k).getD 0

/-- `input_row` assembly from src/app.py line 156:
`[data_dict.get(feat, 0) for feat in feature_order]`. -/
def encode (r : RawAnswers) (order : List String) : Option (List ℚ) :=
  (data_dict r).map (fun d => order.map (fun feat => lookupD d feat))

/-- The field names of `data_dict`, in source order. -/
def fieldNames : List String :=
  ["Gender", "Age_Group", "Pregnancy_status", "Blood_pressure", "Cholesterol",
   "Diabetes", "Home_pesticides", "Weed_pesticides", "Had_asthma",
   "Still_asthma", "ER_visit_past_year", "Smoking_frequency",
   "Cigarettes_per_day", "Duration_insulin", "Weight_kg", "Height_cm", "BMI",
   "Exercise_per_month"]

/-- The risk thresholds of src/app.py lines 161-169: the CSS class and the
label selected from the probability.  The literals 0.20 and 0.50 are exact in
ℚ. -/
def categorize (prob : ℚ) : String × String :=
  if prob < 0.20 then ("green", "NO RISK")
  else if prob < 0.50 then ("yellow", "LOW RISK")
  else ("red", "HIGH RISK")

/-- Error raised when the encoded vector width disagrees with the scoring
artifact's expected input width. -/
inductive ScoreError where
  | schemaMismatch
  deriving DecidableEq

/-- A pre-trained scoring artifact: an expected input width and an opaque
row-scoring function. -/
structure ScoringModel where
  inputWidth : ℕ
  fn : List ℚ → ℚ

/-- Modelled from the spec: the scoring artifact (`asthma_rf.onnx`, invoked at
src/app.py line 158 via `model.run`) is not under src/; per the spec the
adapter "Fails with a SchemaMismatchError if the vector's length does not
match what the underlying scoring function expects" and never silently
truncates or pads the vector. -/
def score (m : ScoringModel) (v : List ℚ) : Except ScoreError ℚ :=
  if v.length = m.inputWidth then Except.ok (m.fn v)
  else Except.error ScoreError.schemaMismatch

/-- The spec's end-to-end scenario (§8): Age_Group "15-30", all yes/no fields
"No", smoking "No", cigarettes "<1", insulin duration "Invalid", weight 70,
height 170, exercise 8. -/
def sampleRaw : RawAnswers where
  gender_label := "Female"
  age_group := "15-30"
  pregnancy := "No"
  blood_pressure := "No"
  cholesterol := "No"
  diabetes := "No"
  home_pes := "No"
  weed_pes := "No"
  had_asthma := "No"
  weight := 70
  height := 170
  exercise := 8
  smoking := "No"
  cigs := "<1"
  duration_insulin := "Invalid"
  still_asthma := "No"
  er_visit := "No"

example : encode sampleRaw ["Age_Group", "Mystery_field"] = some [1, 0] := by
  with_unfolding_all decide

lemma lookup_eq_none_of_not_mem {β : Type} (d : List (String × β)) (k : String)
    (h : k ∉ d.map Prod.fst) : d.lookup k = none := by
  induction d with
  | nil => rfl
  | cons e t ih =>
    obtain ⟨ek, ev⟩ := e
    simp only [List.map_cons, List.mem_cons] at h
    push_neg at h
    have hk : (k == ek) = false := beq_eq_false_iff_ne.mpr h.1
    simp [List.lookup, hk, ih h.2]

lemma categorize_cases (s : ℚ) :
    (s < 0.20 ∧ categorize s = ("green", "NO RISK")) ∨
    (0.20 ≤ s ∧ s < 0.50 ∧ categorize s = ("yellow", "LOW RISK")) ∨
    (0.50 ≤ s ∧ categorize s = ("red", "HIGH RISK")) := by
  unfold categorize
  split_ifs with h1 h2
  · exact Or.inl ⟨h1, rfl⟩
  · exact Or.inr (Or.inl ⟨le_of_not_lt h1, h2, rfl⟩)
  · exact Or.inr (Or.inr ⟨le_of_not_lt h2, rfl⟩)

/-- C2: for every score, the categorizer returns NO RISK exactly when the
score is below 0.20, LOW RISK exactly on [0.20, 0.50), HIGH RISK exactly on
[0.50, ∞); the lower bounds of the higher bands are closed, so 0.20 itself is
LOW RISK and 0.50 itself is HIGH RISK. -/
theorem categorize_band_boundaries (s : ℚ) :
    ((categorize s).2 = "NO RISK" ↔ s < 0.20) ∧
    ((categorize s).2 = "LOW RISK" ↔ 0.20 ≤ s ∧ s < 0.50) ∧
    ((categorize s).2 = "HIGH RISK" ↔ 0.50 ≤ s) ∧
    (categorize 0.20).2 = "LOW RISK" ∧
    (categorize 0.50).2 = "HIGH RISK" := by
  have hA : (categorize 0.20).2 = "LOW RISK" := by
    with_unfolding_all decide
  have hB : (categorize 0.50).2 = "HIGH RISK" := by
    with_unfolding_all decide
  refine ⟨⟨?_, ?_⟩, ⟨?_, ?_⟩, ⟨?_, ?_⟩, hA, hB⟩
  · intro hl
    rcases categorize_cases s with ⟨h, hc⟩ | ⟨h, h2, hc⟩ | ⟨h, hc⟩ <;>
      rw [hc] at hl <;> simp at hl <;> linarith
  · intro hlt
    rcases categorize_cases s with ⟨h, hc⟩ | ⟨h, h2, hc⟩ | ⟨h, hc⟩ <;>
      rw [hc] <;> first | rfl | (exfalso; linarith)
  · intro hl
    rcases categorize_cases s with ⟨h, hc⟩ | ⟨h, h2, hc⟩ | ⟨h, hc⟩ <;>
      rw [hc] at hl <;> simp at hl <;> exact ⟨h, h2⟩
  · intro hlt
    obtain ⟨hl1, hl2⟩ := hlt
    rcases categorize_cases s with ⟨h, hc⟩ | ⟨h, h2, hc⟩ | ⟨h, hc⟩ <;>
      rw [hc] <;> first | rfl | (exfalso; linarith)
  · intro hl
    rcases categorize_cases s with ⟨h, hc⟩ | ⟨h, h2, hc⟩ | ⟨h, hc⟩ <;>
      rw [hc] at hl <;> simp at hl <;> linarith
  · intro hlt
    rcases categorize_cases s with ⟨h, hc⟩ | ⟨h, h2, hc⟩ | ⟨h, hc⟩ <;>
      rw [hc] <;> first | rfl | (exfalso; linarith)

/-- C9: the categorizer is total over all rational scores, not only [0,1]:
negative scores map to NO RISK, scores above 1 map to HIGH RISK, and every
score yields exactly one of the three labels (no clamping or rejection). -/
theorem categorize_total_any_score (s : ℚ) :
    (s < 0 → (categorize s).2 = "NO RISK") ∧
    (1 < s → (categorize s).2 = "HIGH RISK") ∧
    ((categorize s).2 = "NO RISK" ∨ (categorize s).2 = "LOW RISK" ∨
      (categorize s).2 = "HIGH RISK") ∧
    ¬((categorize s).2 = "NO RISK" ∧ (categorize s).2 = "LOW RISK") ∧
    ¬((categorize s).2 = "NO RISK" ∧ (categorize s).2 = "HIGH RISK") ∧
    ¬((categorize s).2 = "LOW RISK" ∧ (categorize s).2 = "HIGH RISK") := by
  rcases categorize_cases s with ⟨h, hc⟩ | ⟨h, h2, hc⟩ | ⟨h, hc⟩ <;> rw [hc]
  · refine ⟨fun _ => rfl, fun hs => by exfalso; linarith, Or.inl rfl, ?_, ?_, ?_⟩ <;>
      simp
  · refine ⟨fun hs => by exfalso; linarith, fun hs => by exfalso; linarith,
      Or.inr (Or.inl rfl), ?_, ?_, ?_⟩ <;> simp
  · refine ⟨fun hs => by exfalso; linarith, fun _ => rfl,
      Or.inr (Or.inr rfl), ?_, ?_, ?_⟩ <;> simp

theorem categorize_total_any_score_witness :
    (categorize (-1)).2 = "NO RISK" ∧ (categorize 2).2 = "HIGH RISK" :=
  ⟨(categorize_total_any_score (-1)).1 (by norm_num),
   (categorize_total_any_score 2).2.1 (by norm_num)⟩

/-- C4: the fixed lookup tables map every valid categorical value as the spec
states: age brackets to ordinals 0-4, Yes/No to 1/0, smoking frequency to
ordinals 0-2 with the explicit "Invalid" choice mapping to -1, and the
cigarette-count bucket to ordinals 0-2 with "Invalid" mapping to -1. -/
theorem lookup_tables_values :
    age_map.lookup "Under 15" = some 0 ∧
    age_map.lookup "15-30" = some 1 ∧
    age_map.lookup "30-45" = some 2 ∧
    age_map.lookup "45-60" = some 3 ∧
    age_map.lookup "60+" = some 4 ∧
    binary_map.lookup "Yes" = some 1 ∧
    binary_map.lookup "No" = some 0 ∧
    smoking_map.lookup "No" = some 0 ∧
    smoking_map.lookup "Some days" = some 1 ∧
    smoking_map.lookup "Every day" = some 2 ∧
    smoking_map.lookup "Invalid" = some (-1) ∧
    cigs_map.lookup "<1" = some 0 ∧
    cigs_map.lookup "2-5" = some 1 ∧
    cigs_map.lookup ">5" = some 2 ∧
    cigs_map.lookup "Invalid" = some (-1) := by
  decide

/-- C10: the duration encoder's sentinel collides with valid parses: the
non-sentinel input "-1 months" encodes to -1, the same value produced for the
literal sentinel "Invalid" and for unparseable text such as "abc". -/
theorem duration_sentinel_collision :
    encode_duration "-1 months" = -1 ∧
    "-1 months" ≠ "Invalid" ∧
    encode_duration "Invalid" = -1 ∧
    encode_duration "abc" = -1 := by
  with_unfolding_all decide

/-- C5: scoring a vector whose length differs from the artifact's expected
input width fails with a SchemaMismatchError surfaced to the caller; when the
length matches, the scoring function is applied to the vector itself, never a
truncated or padded one. -/
theorem score_schema_mismatch (m : ScoringModel) (v : List ℚ) :
    (v.length ≠ m.inputWidth → score m v = Except.error ScoreError.schemaMismatch) ∧
    (v.length = m.inputWidth → score m v = Except.ok (m.fn v)) := by
  unfold score
  constructor <;> intro h <;> simp [h]

/-- A concrete scoring artifact expecting 18 features. -/
def sampleModel : ScoringModel where
  inputWidth := 18
  fn := fun v => v.headD 0

theorem score_schema_mismatch_witness :
    score sampleModel [1, 2] = Except.error ScoreError.schemaMismatch :=
  (score_schema_mismatch sampleModel [1, 2]).1 (by decide)

/-- C7: the encoder is a pure, deterministic function of the raw answers and
the feature order: equal inputs always produce identical feature vectors. -/
theorem encode_deterministic (r1 r2 : RawAnswers) (o1 o2 : List String)
    (hr : r1 = r2) (ho : o1 = o2) : encode r1 o1 = encode r2 o2 := by
  rw [hr, ho]

theorem encode_deterministic_witness :
    encode sampleRaw fieldNames = encode sampleRaw fieldNames :=
  encode_deterministic sampleRaw sampleRaw fieldNames fieldNames rfl rfl

lemma data_dict_eq (r : RawAnswers) (a p bp ch di hp wp hada sa er sm cg : ℤ)
    (h1 : age_map.lookup r.age_group = some a)
    (h2 : binary_map.lookup r.pregnancy = some p)
    (h3 : binary_map.lookup r.blood_pressure = some bp)
    (h4 : binary_map.lookup r.cholesterol = some ch)
    (h5 : binary_map.lookup r.diabetes = some di)
    (h6 : binary_map.lookup r.home_pes = some hp)
    (h7 : binary_map.lookup r.weed_pes = some wp)
    (h8 : binary_map.lookup r.had_asthma = some hada)
    (h9 : binary_map.lookup r.still_asthma = some sa)
    (h10 : binary_map.lookup r.er_visit = some er)
    (h11 : smoking_map.lookup r.smoking = some sm)
    (h12 : cigs_map.lookup r.cigs = some cg) :
    data_dict r = some (dictEntries r a p bp ch di hp wp hada sa er sm cg) := by
  simp [data_dict, h1, h2, h3, h4, h5, h6, h7, h8, h9, h10, h11, h12]

/-- C3: the duration encoder returns -1 on the literal sentinel "Invalid";
otherwise it takes the first whitespace-delimited token, parses it as a number
and truncates toward zero; on any parse failure (including the empty string,
whose token list is empty) it returns -1, and it is total, so no exception
ever reaches the caller; in particular "6 months" encodes to 6 and "abc" and
"" encode to -1. -/
theorem encode_duration_behaviour :
    encode_duration "Invalid" = -1 ∧
    encode_duration "6 months" = 6 ∧
    encode_duration "abc" = -1 ∧
    encode_duration "" = -1 ∧
    (∀ x : String, x ≠ "Invalid" → pySplit x = [] → encode_duration x = -1) ∧
    (∀ x : String, ∀ t : List Char, ∀ ts : List (List Char), ∀ q : ℚ,
      x ≠ "Invalid" → pySplit x = t :: ts → parsePyFloat t = some q →
      encode_duration x = truncRat q) ∧
    (∀ x : String, ∀ t : List Char, ∀ ts : List (List Char),
      x ≠ "Invalid" → pySplit x = t :: ts → parsePyFloat t = none →
      encode_duration x = -1) := by
  refine ⟨by decide, by with_unfolding_all decide, by decide, by decide,
    ?_, ?_, ?_⟩
  · intro x hx hsplit
    simp [encode_duration, hx, hsplit]
  · intro x t ts q hx hsplit hparse
    simp [encode_duration, hx, hsplit, hparse]
  · intro x t ts hx hsplit hparse
    simp [encode_duration, hx, hsplit, hparse]

theorem encode_duration_behaviour_witness :
    encode_duration "6 months" = truncRat 6 :=
  encode_duration_behaviour.2.2.2.2.2.1 "6 months" ['6']
    [['m', 'o', 'n', 't', 'h', 's']] 6 (by decide) (by decide)
    (by with_unfolding_all decide)

/-- C1: whenever every categorical field takes a value present in its lookup
table, the encoder produces a vector (no failure) of length exactly that of
the feature order, whose position i holds the encoded value of the i-th
feature name, and any feature name absent from the encoded field set yields
the default 0 at its position rather than an error. -/
theorem encode_shape_order_default (r : RawAnswers) (order : List String)
    (a p bp ch di hp wp hada sa er sm cg : ℤ)
    (h1 : age_map.lookup r.age_group = some a)
    (h2 : binary_map.lookup r.pregnancy = some p)
    (h3 : binary_map.lookup r.blood_pressure = some bp)
    (h4 : binary_map.lookup r.cholesterol = some ch)
    (h5 : binary_map.lookup r.diabetes = some di)
    (h6 : binary_map.lookup r.home_pes = some hp)
    (h7 : binary_map.lookup r.weed_pes = some wp)
    (h8 : binary_map.lookup r.had_asthma = some hada)
    (h9 : binary_map.lookup r.still_asthma = some sa)
    (h10 : binary_map.lookup r.er_visit = some er)
    (h11 : smoking_map.lookup r.smoking = some sm)
    (h12 : cigs_map.lookup r.cigs = some cg) :
    encode r order = some (order.map (fun feat =>
      lookupD (dictEntries r a p bp ch di hp wp hada sa er sm cg) feat)) ∧
    (order.map (fun feat =>
      lookupD (dictEntries r a p bp ch di hp wp hada sa er sm cg) feat)).length
      = order.length ∧
    (∀ i : ℕ, (order.map (fun feat =>
      lookupD (dictEntries r a p bp ch di hp wp hada sa er sm cg) feat))[i]? =
      (order[i]?).map (fun feat =>
        lookupD (dictEntries r a p bp ch di hp wp hada sa er sm cg) feat)) ∧
    (∀ feat : String, feat ∉ fieldNames →
      lookupD (dictEntries r a p bp ch di hp wp hada sa er sm cg) feat = 0) := by
  have hd := data_dict_eq r a p bp ch di hp wp hada sa er sm cg
    h1 h2 h3 h4 h5 h6 h7 h8 h9 h10 h11 h12
  refine ⟨by simp [encode, hd], by simp, fun i => by simp [List.getElem?_map],
    fun feat hf => ?_⟩
  have hkeys :
      (dictEntries r a p bp ch di hp wp hada sa er sm cg).map Prod.fst =
        fieldNames := rfl
  unfold lookupD
  rw [lookup_eq_none_of_not_mem]
  · rfl
  · rw [hkeys]
    exact hf

theorem encode_shape_order_default_witness :
    encode sampleRaw ["Age_Group", "Mystery_field"] = some [1, 0] := by
  have h := encode_shape_order_default sampleRaw ["Age_Group", "Mystery_field"]
    1 0 0 0 0 0 0 0 0 0 0 0 rfl rfl rfl rfl rfl rfl rfl rfl rfl rfl rfl rfl
  exact h.1.trans (by with_unfolding_all decide)

/-- C8: the encoder also encodes a Gender field (not listed in the spec's
encoding tables): "Male" maps to 1 and any other gender label (the form only
offers "Female") maps to 0. -/
theorem gender_field_encoding (r : RawAnswers)
    (a p bp ch di hp wp hada sa er sm cg : ℤ)
    (h1 : age_map.lookup r.age_group = some a)
    (h2 : binary_map.lookup r.pregnancy = some p)
    (h3 : binary_map.lookup r.blood_pressure = some bp)
    (h4 : binary_map.lookup r.cholesterol = some ch)
    (h5 : binary_map.lookup r.diabetes = some di)
    (h6 : binary_map.lookup r.home_pes = some hp)
    (h7 : binary_map.lookup r.weed_pes = some wp)
    (h8 : binary_map.lookup r.had_asthma = some hada)
    (h9 : binary_map.lookup r.still_asthma = some sa)
    (h10 : binary_map.lookup r.er_visit = some er)
    (h11 : smoking_map.lookup r.smoking = some sm)
    (h12 : cigs_map.lookup r.cigs = some cg) :
    encode r ["Gender"] = some [if r.gender_label = "Male" then 1 else 0] ∧
    (r.gender_label = "Male" → encode r ["Gender"] = some [1]) ∧
    (r.gender_label ≠ "Male" → encode r ["Gender"] = some [0]) := by
  have hd := data_dict_eq r a p bp ch di hp wp hada sa er sm cg
    h1 h2 h3 h4 h5 h6 h7 h8 h9 h10 h11 h12
  have hmain : encode r ["Gender"] =
      some [if r.gender_label = "Male" then 1 else 0] := by
    simp [encode, hd, lookupD, dictEntries, List.lookup]
  refine ⟨hmain, fun hg => ?_, fun hg => ?_⟩
  · rw [hmain, if_pos hg]
  · rw [hmain, if_neg hg]

theorem gender_field_encoding_witness :
    encode sampleRaw ["Gender"] = some [0] := by
  have h := gender_field_encoding sampleRaw
    1 0 0 0 0 0 0 0 0 0 0 0 rfl rfl rfl rfl rfl rfl rfl rfl rfl rfl rfl rfl
  exact h.2.2 (by decide)

/-- C6: the derived BMI field equals weight_kg / (height_cm/100)^2 computed
from the raw inputs, and weight, height and exercise count pass into the
vector unmodified; at weight 70 and height 170 the BMI is exactly 7000/289,
which lies within 0.01 of 24.22. -/
theorem bmi_and_passthrough_fields (r : RawAnswers)
    (a p bp ch di hp wp hada sa er sm cg : ℤ)
    (h1 : age_map.lookup r.age_group = some a)
    (h2 : binary_map.lookup r.pregnancy = some p)
    (h3 : binary_map.lookup r.blood_pressure = some bp)
    (h4 : binary_map.lookup r.cholesterol = some ch)
    (h5 : binary_map.lookup r.diabetes = some di)
    (h6 : binary_map.lookup r.home_pes = some hp)
    (h7 : binary_map.lookup r.weed_pes = some wp)
    (h8 : binary_map.lookup r.had_asthma = some hada)
    (h9 : binary_map.lookup r.still_asthma = some sa)
    (h10 : binary_map.lookup r.er_visit = some er)
    (h11 : smoking_map.lookup r.smoking = some sm)
    (h12 : cigs_map.lookup r.cigs = some cg) :
    encode r ["BMI", "Weight_kg", "Height_cm", "Exercise_per_month"] =
      some [r.weight / ((r.height / 100) ^ 2), r.weight, r.height,
        (r.exercise : ℚ)] ∧
    bmi sampleRaw = 7000 / 289 ∧
    (24.21 : ℚ) < bmi sampleRaw ∧ bmi sampleRaw < 24.23 := by
  have hd := data_dict_eq r a p bp ch di hp wp hada sa er sm cg
    h1 h2 h3 h4 h5 h6 h7 h8 h9 h10 h11 h12
  refine ⟨?_, by norm_num [bmi, sampleRaw], by norm_num [bmi, sampleRaw],
    by norm_num [bmi, sampleRaw]⟩
  simp [encode, hd, lookupD, dictEntries, List.lookup, bmi]

theorem bmi_and_passthrough_fields_witness :
    encode sampleRaw ["BMI", "Weight_kg", "Height_cm", "Exercise_per_month"] =
      some [7000 / 289, 70, 170, 8] := by
  have h := bmi_and_passthrough_fields sampleRaw
    1 0 0 0 0 0 0 0 0 0 0 0 rfl rfl rfl rfl rfl rfl rfl rfl rfl rfl rfl rfl
  exact h.1.trans (by norm_num [sampleRaw])

end AsthmaRisk
